import Mathlib

/-!
Verification of the Module Environment Manager specification of the
easybuild-framework repository, together with the `EasyBuildLog`
error/exception behaviour of `easybuild/tools/build_log.py`.

The modules-tool implementation itself (`easybuild/tools/modules.py`) is not
part of the available sources; only its unit tests
(`test/framework/modules.py`) are.  The definitions in the first part of this
file are therefore modelled from the specification (sections 3, 4.1, 4.3,
4.4, 4.5 of the spec), pinned where possible by the observable behaviour the
unit tests assert.  The second part embeds `EasyBuildLog.error` and
`EasyBuildLog.exception` directly from `easybuild/tools/build_log.py`.
-/

/-! ## Generic list helpers (ordering, de-duplication) -/

/-- De-duplicate a list of strings, keeping the first occurrence of each
element (used when aggregating module names found via several roots). -/
def dedup (l : List String) : List String :=
  l.foldl (fun acc x => if x ∈ acc then acc else acc ++ [x]) []

/-- Split a character list at every occurrence of separator `c` (auxiliary
for `splitChar`; the accumulator holds the current segment reversed). -/
def splitCharAux (c : Char) : List Char → List Char → List (List Char)
  | [], cur => [cur.reverse]
  | x :: xs, cur =>
    if x == c then cur.reverse :: splitCharAux c xs []
    else splitCharAux c xs (x :: cur)

/-- Split a string at every occurrence of separator `c` (kernel-reducible
counterpart of splitting on a one-character separator). -/
def splitChar (c : Char) (s : String) : List String :=
  (splitCharAux c s.toList []).map String.mk

/-- Is `pre` a leading segment of `s`?  (Auxiliary, over character lists.) -/
def strStartsWithAux : List Char → List Char → Bool
  | [], _ => true
  | _ :: _, [] => false
  | p :: ps, s :: ss => p == s && strStartsWithAux ps ss

/-- Does string `s` start with `pre`?  Kernel-reducible counterpart of
`String.startsWith`. -/
def strStartsWith (s pre : String) : Bool :=
  strStartsWithAux pre.toList s.toList

/-- Does string `s` contain character `c`?  Kernel-reducible counterpart of
`String.contains`. -/
def strHasChar (s : String) (c : Char) : Bool :=
  s.toList.contains c

/-- Parse a nonempty all-digit string as a natural number (kernel-reducible
counterpart of `String.toNat?`). -/
def parseNat? (cs : List Char) : Option Nat :=
  match cs with
  | [] => Option.none
  | _ =>
    if cs.all (fun c => 48 ≤ c.toNat && c.toNat ≤ 57)
    then some (cs.foldl (fun acc c => acc * 10 + (c.toNat - 48)) 0)
    else Option.none

/-- Compare two version segments: numeric segments compare as numbers,
non-numeric segments compare as strings, and a numeric segment sorts before a
non-numeric one.  Modelled from the spec: `available` sorts "ascending by
version ordering (numeric-segment-aware comparison, not naive string
comparison)". -/
def natSegCmp (a b : String) : Ordering :=
  match parseNat? a.toList, parseNat? b.toList with
  | some m, some n => compare m n
  | some _, Option.none => Ordering.lt
  | Option.none, some _ => Ordering.gt
  | Option.none, Option.none => compare a b

/-- Segment-wise comparison of dot-separated version strings. -/
def segsCmp : List String → List String → Ordering
  | [], [] => Ordering.eq
  | [], _ :: _ => Ordering.lt
  | _ :: _, [] => Ordering.gt
  | a :: as, b :: bs =>
    match natSegCmp a b with
    | Ordering.eq => segsCmp as bs
    | o => o

/-- Numeric-segment-aware comparison of version strings such as `4.6.3`. -/
def verCmp (a b : String) : Ordering :=
  segsCmp (splitChar '.' a) (splitChar '.' b)

/-- Split a full module name `Name/Version` at the first slash. -/
def modSplit (m : String) : String × String :=
  match splitChar '/' m with
  | [] => ("", "")
  | n :: rest => (n, String.intercalate "/" rest)

/-- Ordering on full `Name/Version` module names: by name, then by
numeric-segment-aware version comparison. -/
def modNameCmp (a b : String) : Ordering :=
  match compare (modSplit a).1 (modSplit b).1 with
  | Ordering.eq => verCmp (modSplit a).2 (modSplit b).2
  | o => o

/-- `a` sorts no later than `b` under `modNameCmp`. -/
def modNameLe (a b : String) : Bool :=
  match modNameCmp a b with
  | Ordering.gt => false
  | _ => true

/-- Insert a string into a list at its sorted position (w.r.t. `le`). -/
def insertSorted (le : String → String → Bool) (a : String) :
    List String → List String
  | [] => [a]
  | b :: bs => if le a b then a :: b :: bs else b :: insertSorted le a bs

/-- Insertion sort on lists of strings w.r.t. a boolean `le`. -/
def sortStrings (le : String → String → Bool) : List String → List String
  | [] => []
  | a :: as => insertSorted le a (sortStrings le as)

/-! ## Module filesystem and availability query engine

Modelled from the spec: the Backend Adapter's `listAvailable` capability
(section 4.2) is abstracted as a map from existing module search directories
to the full `Name/Version` module names found under them, plus, for the
Session State Tracker, the library-path entries a module prepends when
loaded. -/

/-- Modelled from the spec: the part of the host filesystem / backend state
the Module Environment Manager observes (`easybuild/tools/modules.py` is not
among the available sources).  `dirs` are the directories that exist on
disk, `mods` maps an existing search directory to the full `Name/Version`
module names available under it, and `lib` maps a module name to the entries
it prepends to the library-search-path variable when loaded. -/
structure ModFS where
  dirs : List String
  mods : List (String × List String)
  lib : List (String × List String)
deriving DecidableEq, Repr

/-- Does directory `d` exist in this filesystem model? -/
def ModFS.dirExists (fs : ModFS) (d : String) : Bool :=
  fs.dirs.contains d

/-- The full module names available under search directory `d`. -/
def ModFS.modsIn (fs : ModFS) (d : String) : List String :=
  match fs.mods.find? (fun p => p.1 == d) with
  | some p => p.2
  | Option.none => []

/-- The library-search-path entries module `m` prepends when loaded. -/
def ModFS.libEntries (fs : ModFS) (m : String) : List String :=
  match fs.lib.find? (fun p => p.1 == m) with
  | some p => p.2
  | Option.none => []

/-- Modelled from the spec: the Availability Query Engine's aggregation over
every registered search path (section 4.3): broken (nonexistent) entries are
skipped, results found via several roots are de-duplicated, and the result is
sorted ascending with numeric-segment-aware version comparison. -/
def availableAll (fs : ModFS) (modPaths : List String) : List String :=
  sortStrings modNameLe
    (dedup (List.flatten ((modPaths.filter fs.dirExists).map fs.modsIn)))

/-- Does available entry `e` match query pattern `p`?  A full name matches
itself verbatim, and a bare name matches every version below it. -/
def matchesPattern (p e : String) : Bool :=
  e == p || strStartsWith e (p ++ "/")

/-- Modelled from the spec: `available(pattern) -> ordered sequence of
"Name/Version" strings` (section 4.3); an empty filter returns the full
available set across every registered path. -/
def available (fs : ModFS) (modPaths : List String) :
    Option String → List String
  | Option.none => availableAll fs modPaths
  | some p => (availableAll fs modPaths).filter (matchesPattern p)

/-- Modelled from the spec: `exists(ModuleName) -> boolean`, exact match only
(section 4.3): the queried name must itself occur among the matching
available entries. -/
def moduleExists (fs : ModFS) (modPaths : List String) (name : String) :
    Bool :=
  decide (name ∈ available fs modPaths (some name))

/-! ## Test fixture

A concrete filesystem mirroring the shape of the test module tree used by
`test/framework/modules.py`: exactly three `GCC` versions (listed out of
order so that sorting is exercised), an `OpenMPI` module, a plain module and
a hierarchy-only placeholder. -/

/-- The single module search directory of the fixture. -/
def fixturePaths : List String := ["/test/modules"]

/-- Concrete fixture filesystem: three GCC versions (out of order), OpenMPI,
gzip, and a hierarchy placeholder module. -/
def fixtureFS : ModFS :=
  { dirs := ["/test/modules"]
    mods := [("/test/modules",
      ["GCC/4.7.2", "GCC/4.6.3", "GCC/4.6.4",
       "OpenMPI/1.6.4-GCC-4.6.4", "gzip/1.4", "Core/compilerstub/1.0"])]
    lib := [("GCC/4.6.3", ["/software/GCC/4.6.3/lib64", "/software/GCC/4.6.3/lib"])] }

/-! ## Session state tracker

Modelled from the spec (section 4.4): the ordered set of currently loaded
modules and the environment deltas they caused.  The library-search-path
variable is modelled as its ordered list of entries; per section 9 the
tracker captures a baseline snapshot of the variable before the first
mutation and `purge` restores exactly that baseline. -/

/-- Error kinds surfaced by the Module Environment Manager (spec section 7;
only the ones the session operations can produce are modelled here). -/
inductive ModError where
  | moduleNotFound
deriving DecidableEq, Repr

/-- Modelled from the spec: the Session State Tracker's state (section 4.4):
the ordered loaded-module set, the current value of the library-search-path
variable (as its ordered list of entries), and the baseline snapshot of that
variable captured before the first mutation (`Option.none` until then). -/
structure Session where
  loaded : List String
  envLD : List String
  baselineLD : Option (List String)
deriving DecidableEq, Repr

/-- A fresh session over an untouched environment whose library-search-path
variable currently holds `env0`. -/
def Session.init (env0 : List String) : Session :=
  { loaded := [], envLD := env0, baselineLD := Option.none }

/-- Modelled from the spec: loading one module (section 4.4): fails with
`ModuleNotFound` when the name does not satisfy `exists`; otherwise captures
the baseline if this is the first mutation, prepends the module's
library-path entries, and appends the module to the loaded set (no
duplicates: re-loading a module already present re-applies its deltas but
does not duplicate the entry). -/
def Session.load1 (fs : ModFS) (mp : List String) (s : Session)
    (m : String) : Except ModError Session :=
  if moduleExists fs mp m then
    Except.ok
      { loaded := if s.loaded.contains m then s.loaded else s.loaded ++ [m]
        envLD := fs.libEntries m ++ s.envLD
        baselineLD := some (s.baselineLD.getD s.envLD) }
  else
    Except.error ModError.moduleNotFound

/-- Modelled from the spec: `load(sequence of ModuleName)` loads each module
in the given order (section 4.4). -/
def Session.load (fs : ModFS) (mp : List String) :
    Session → List String → Except ModError Session
  | s, [] => Except.ok s
  | s, m :: ms =>
    match Session.load1 fs mp s m with
    | Except.ok s2 => Session.load fs mp s2 ms
    | Except.error e => Except.error e

/-- Modelled from the spec: `purge()` unloads every loaded module and reverts
every recorded delta, restoring the library-search-path variable to exactly
its pre-session value (section 4.4); on a session that never mutated the
environment it leaves the variable untouched. -/
def Session.purge (s : Session) : Session :=
  { loaded := []
    envLD := s.baselineLD.getD s.envLD
    baselineLD := s.baselineLD }

/-- Modelled from the spec: `loadedModules()` returns the ordered sequence of
currently loaded modules (section 4.4). -/
def Session.loadedModules (s : Session) : List String :=
  s.loaded

/-! ## Module Path Registry initialisation

`modules_tool()` and its `mod_paths` initialisation are not among the
available sources; the unit test `test_wrong_modulepath`
(`test/framework/modules.py:210-220`) pins their observable behaviour: after
`init_config()` with a `MODULEPATH` of two nonexistent directories and one
valid one, `mod_paths` has exactly two entries — the EasyBuild modules
install path first, then the valid directory — so entries that do not exist
on disk are dropped from the registry at initialisation. -/

/-- Modelled from the spec: the initialisation of the Module Path Registry
(`mod_paths`) from a `MODULEPATH`-style configuration list
(`easybuild/tools/modules.py` is not among the available sources).  The
EasyBuild modules install path is put first, duplicates are removed, and —
as the unit test `test_wrong_modulepath` asserts via `len(mod_paths) == 2` —
entries that do not exist on disk are dropped rather than retained. -/
def initModPaths (fs : ModFS) (installPath : String)
    (modulepath : List String) : List String :=
  (dedup (installPath :: modulepath)).filter fs.dirExists

/-! ## Software Locator

Modelled from the spec (section 4.5): derive installed-package root path,
version and library subdirectory from a package name via the fixed naming
convention, reading convention-named environment variables. -/

/-- Modelled from the spec: canonicalize a package name into an
environment-variable suffix (section 4.5): upper-case the name, mapping a
hyphen to the token `MIN` and a plus to the token `PLUS` (so `netCDF-C++`
becomes `NETCDFMINCPLUSPLUS`, `grib_api` becomes `GRIB_API`). -/
def convert_name (name : String) : String :=
  String.join (name.toList.map (fun c =>
    if c == '-' then "MIN"
    else if c == '+' then "PLUS"
    else String.mk [c.toUpper]))

/-- Look up an environment variable in an association-list environment. -/
def lookupEnv (env : List (String × String)) (k : String) : Option String :=
  (env.find? (fun p => p.1 == k)).map (fun p => p.2)

/-- Modelled from the spec: `getRoot(name)` reads `EBROOT<suffix>` from the
environment, returning `Option.none` (not an error) when absent
(section 4.5). -/
def get_software_root (env : List (String × String)) (name : String) :
    Option String :=
  lookupEnv env ("EBROOT" ++ convert_name name)

/-- Modelled from the spec: `getVersion(name)` reads `EBVERSION<suffix>` from
the environment, returning `Option.none` (not an error) when absent
(section 4.5). -/
def get_software_version (env : List (String × String)) (name : String) :
    Option String :=
  lookupEnv env ("EBVERSION" ++ convert_name name)

/-- The fixed list of subdirectory names that "look like library
directories", in sorted order (the unit test exercises `lib` and `lib64`). -/
def libSubdirCandidates : List String := ["lib", "lib64"]

/-- The files directly under subdirectory `d` of the resolved root, where the
root's immediate subdirectories are modelled as an association list from
subdirectory name to contained file names. -/
def subdirFiles (subdirs : List (String × List String)) (d : String) :
    List String :=
  match subdirs.find? (fun p => p.1 == d) with
  | some p => p.2
  | Option.none => []

/-- Does subdirectory `d` exist under the resolved root? -/
def subdirOnDisk (subdirs : List (String × List String)) (d : String) :
    Bool :=
  (subdirs.find? (fun p => p.1 == d)).isSome

/-- Modelled from the spec: does library-subdirectory candidate `d` qualify
(section 4.5)?  It must exist under the root, and when a required-file set
`fsreq` is given it must contain at least one of the listed files. -/
def subdirQualifies (subdirs : List (String × List String))
    (fsreq : Option (List String)) (d : String) : Bool :=
  subdirOnDisk subdirs d &&
    (match fsreq with
     | Option.none => true
     | some req => req.any (fun f => (subdirFiles subdirs d).contains f))

/-- The qualifying library subdirectories of the resolved root, in sorted
order (the candidate list is scanned in its sorted order). -/
def qualifyingLibdirs (subdirs : List (String × List String))
    (fsreq : Option (List String)) : List String :=
  libSubdirCandidates.filter (subdirQualifies subdirs fsreq)

/-- Result of `getLibdir`: no qualifying subdirectory, exactly one, all of
them (when `only_one` is false), or the `AmbiguousLibraryDirectory`
failure. -/
inductive LibdirResult where
  | noneFound
  | one (dir : String)
  | many (dirs : List String)
  | ambiguousLibraryDirectory
deriving DecidableEq, Repr

/-- Modelled from the spec: `getLibdir(name, only_one, fs)` (section 4.5)
over the immediate subdirectories of the resolved root (`Option.none` when
`getRoot` found no root): zero qualifying subdirectories yield `noneFound`,
exactly one yields it, several yield the `AmbiguousLibraryDirectory` failure
when `only_one` is true and all of them, sorted, when it is false. -/
def get_software_libdir (root : Option (List (String × List String)))
    (only_one : Bool) (fsreq : Option (List String)) : LibdirResult :=
  match root with
  | Option.none => LibdirResult.noneFound
  | some subdirs =>
    match qualifyingLibdirs subdirs fsreq with
    | [] => LibdirResult.noneFound
    | [d] => LibdirResult.one d
    | ds =>
      if only_one then LibdirResult.ambiguousLibraryDirectory
      else LibdirResult.many ds

/-! ## EasyBuildLog (from `easybuild/tools/build_log.py`)

Shallow embedding of `EasyBuildLog.error` and `EasyBuildLog.exception`.  The
logger's mutable state is its `raiseError` flag and the list of logged
messages; `caller_info` depends on the runtime call stack and is passed in as
an opaque string.  Raising `EasyBuildError` is modelled by returning
`some` exception alongside the post-call state. -/

/-- `EasyBuildError` of `build_log.py`: carries its message. -/
structure EasyBuildError where
  msg : String
deriving DecidableEq, Repr

/-- The mutable state of an `EasyBuildLog` logger: the `raiseError` class
attribute and the messages logged so far. -/
structure LogState where
  raiseError : Bool
  log : List String
deriving DecidableEq, Repr

/-- `EasyBuildLog.error` (build_log.py:80-84): build the wrapped message,
log it via `fancylogger.FancyLogger.error`, then raise `EasyBuildError` with
the wrapped message when `self.raiseError` is set. -/
def EasyBuildLog.error (st : LogState) (callerInfo msg : String) :
    LogState × Option EasyBuildError :=
  let newMsg := "EasyBuild crashed with an error " ++ callerInfo ++ ": " ++ msg
  let st2 : LogState := { st with log := st.log ++ [newMsg] }
  if st.raiseError then (st2, some { msg := newMsg }) else (st2, Option.none)

/-- `fancylogger.FancyLogger.exception` as invoked from
`EasyBuildLog.exception` (build_log.py:91): the Python standard-library
`Logger.exception` logs by calling `self.error`, which dispatches to the
overridden `EasyBuildLog.error` — this is why `raiseError` is toggled around
the call. -/
def FancyLogger.exceptionLog (st : LogState) (callerInfo msg : String) :
    LogState × Option EasyBuildError :=
  EasyBuildLog.error st callerInfo msg

/-- The state `EasyBuildLog.exception` passes to the inner logging call:
`self.raiseError = False` (build_log.py:90). -/
def EasyBuildLog.exceptionInner (st : LogState) : LogState :=
  { st with raiseError := false }

/-- `EasyBuildLog.exception` (build_log.py:86-94): build the wrapped message,
set `raiseError` to `False`, log via `fancylogger.FancyLogger.exception`
(which would propagate an exception were the inner `error` call to raise
one), set `raiseError` back to `True`, and unconditionally raise
`EasyBuildError` with the wrapped message. -/
def EasyBuildLog.exception (st : LogState) (callerInfo msg : String) :
    LogState × Option EasyBuildError :=
  let newMsg :=
    "EasyBuild encountered an exception " ++ callerInfo ++ ": " ++ msg
  match FancyLogger.exceptionLog (EasyBuildLog.exceptionInner st)
      callerInfo newMsg with
  | (st2, some e) => (st2, some e)
  | (st2, Option.none) =>
    ({ st2 with raiseError := true }, some { msg := newMsg })

/-! ## Fixture for the broken-`MODULEPATH` scenario

Mirrors `test_wrong_modulepath`: a `MODULEPATH` of two nonexistent
directories and one valid one, plus the (existing) EasyBuild modules install
path prepended by `init_config`. -/

/-- The `MODULEPATH` configuration of the broken-path scenario. -/
def wrongModulepath : List String :=
  ["/some/non-existing/path", "/this/doesnt/exists/anywhere", "/test/modules"]

/-- The EasyBuild modules install path of the broken-path scenario. -/
def wrongInstallPath : String := "/eb/installpath/modules/all"

/-- Filesystem of the broken-path scenario: only the install path and the
valid test modules directory exist; all modules live under the latter. -/
def wrongFS : ModFS :=
  { dirs := ["/eb/installpath/modules/all", "/test/modules"]
    mods := [("/test/modules", ["gzip/1.4", "GCC/4.6.3"])]
    lib := [] }

/-! ## Helper lemmas -/

/-- A module name that occurs in the full available set satisfies `exists`:
it matches its own pattern verbatim. -/
theorem moduleExists_of_mem_availableAll (fs : ModFS) (mp : List String)
    (m : String) (hm : m ∈ availableAll fs mp) :
    moduleExists fs mp m = true := by
  apply decide_eq_true
  show m ∈ (availableAll fs mp).filter (matchesPattern m)
  exact List.mem_filter.mpr ⟨hm, by simp [matchesPattern]⟩

/-- Purging twice is the same as purging once. -/
theorem Session.purge_purge (s : Session) :
    Session.purge (Session.purge s) = Session.purge s := by
  cases h : s.baselineLD <;> simp [Session.purge, h]

/-- The full available set of the fixture, evaluated. -/
theorem availableAll_fixture : availableAll fixtureFS fixturePaths =
    ["Core/compilerstub/1.0", "GCC/4.6.3", "GCC/4.6.4", "GCC/4.7.2",
     "OpenMPI/1.6.4-GCC-4.6.4", "gzip/1.4"] := by decide

/-! ## The claims -/

/-- C1: for every available module `m` (excluding hierarchy-only placeholder
modules), `load([m])` on a fresh session succeeds, `loadedModules()` of the
resulting session contains `m`, and a subsequent `purge()` makes
`loadedModules()` return the empty sequence. -/
theorem claim_C1 (fs : ModFS) (mp : List String) (env0 : List String)
    (m : String) (hm : m ∈ available fs mp Option.none)
    (_hcore : strStartsWith m "Core/" = false)
    (_hcomp : strStartsWith m "Compiler/" = false) :
    ∃ s2, Session.load fs mp (Session.init env0) [m] = Except.ok s2 ∧
      m ∈ s2.loadedModules ∧
      (Session.purge s2).loadedModules = [] := by
  have hex : moduleExists fs mp m = true :=
    moduleExists_of_mem_availableAll fs mp m hm
  refine ⟨{ loaded := [m], envLD := fs.libEntries m ++ env0,
            baselineLD := some env0 }, ?_, ?_, rfl⟩
  · show Session.load fs mp (Session.init env0) [m] = _
    simp [Session.load, Session.load1, hex, Session.init]
  · simp [Session.loadedModules]

/-- C1 witness: loading the available module `GCC/4.6.3` of the fixture on a
fresh session puts it in `loadedModules()` and purging empties the set. -/
theorem claim_C1_witness :
    ∃ s2, Session.load fixtureFS fixturePaths (Session.init []) ["GCC/4.6.3"] =
        Except.ok s2 ∧
      "GCC/4.6.3" ∈ s2.loadedModules ∧
      (Session.purge s2).loadedModules = [] :=
  claim_C1 fixtureFS fixturePaths [] "GCC/4.6.3" (by decide) (by decide)
    (by decide)

/-- C2 counterexample: in the broken-`MODULEPATH` scenario of
`test_wrong_modulepath`, the nonexistent entry `/some/non-existing/path` is
part of the configuration but does **not** remain present in the Module Path
Registry (`mod_paths`) — the test asserts the registry holds exactly the two
existing directories, so the claim that broken entries remain in the
registry fails. -/
theorem claim_C2_counterexample :
    "/some/non-existing/path" ∈ wrongModulepath ∧
    "/some/non-existing/path" ∉
      initModPaths wrongFS wrongInstallPath wrongModulepath := by
  decide

/-- C2 (amended): broken search-path entries are excluded from query results
and are also dropped from the Module Path Registry (`mod_paths`) at
initialisation; `available()` still returns a nonempty result drawn only
from the valid entries. -/
theorem claim_C2 :
    initModPaths wrongFS wrongInstallPath wrongModulepath =
      [wrongInstallPath, "/test/modules"] ∧
    available wrongFS (initModPaths wrongFS wrongInstallPath wrongModulepath)
      Option.none ≠ [] ∧
    (available wrongFS (initModPaths wrongFS wrongInstallPath wrongModulepath)
      Option.none).all
        (fun e => (wrongFS.modsIn "/test/modules").contains e) = true := by
  refine ⟨by decide, by decide, by decide⟩

/-- C3: when the library-search-path variable ends with a sentinel entry
before `load(["GCC/4.6.3"])` is called on a fresh session, the variable
still ends with the sentinel after the load (pre-existing content preserved,
new content prepended), still ends with it after `purge()`, and a second
`purge()` is a no-op that preserves the property. -/
theorem claim_C3 (fs : ModFS) (mp : List String) (env0 : List String)
    (sentinel : String)
    (hex : moduleExists fs mp "GCC/4.6.3" = true)
    (hend : env0.getLast? = some sentinel) :
    ∃ s2, Session.load fs mp (Session.init env0) ["GCC/4.6.3"] =
        Except.ok s2 ∧
      s2.envLD.getLast? = some sentinel ∧
      (Session.purge s2).envLD.getLast? = some sentinel ∧
      Session.purge (Session.purge s2) = Session.purge s2 := by
  refine ⟨{ loaded := ["GCC/4.6.3"],
            envLD := fs.libEntries "GCC/4.6.3" ++ env0,
            baselineLD := some env0 }, ?_, ?_, hend, rfl⟩
  · show Session.load fs mp (Session.init env0) ["GCC/4.6.3"] = _
    simp [Session.load, Session.load1, hex, Session.init]
  · have hne : env0 ≠ [] := by
      intro hnil
      rw [hnil] at hend
      exact Option.noConfusion hend
    rw [List.getLast?_append_of_ne_nil _ hne]
    exact hend

/-- C3 witness: with the fixture modules and the variable holding exactly the
sentinel `/this/is/just/a/test`, loading `GCC/4.6.3` and purging (twice)
preserve the sentinel at the end of the variable. -/
theorem claim_C3_witness :
    ∃ s2, Session.load fixtureFS fixturePaths
        (Session.init ["/this/is/just/a/test"]) ["GCC/4.6.3"] =
        Except.ok s2 ∧
      s2.envLD.getLast? = some "/this/is/just/a/test" ∧
      (Session.purge s2).envLD.getLast? = some "/this/is/just/a/test" ∧
      Session.purge (Session.purge s2) = Session.purge s2 :=
  claim_C3 fixtureFS fixturePaths ["/this/is/just/a/test"]
    "/this/is/just/a/test" (by decide) (by decide)

/-- C4: `exists` matches fully-qualified name/version pairs verbatim only:
`exists("OpenMPI/1.6.4-GCC-4.6.4")` is true, `exists("foo/1.2.3")` is false,
and every bare name without a version (no slash) yields false even when
versions of that name are available (the fixture has three `GCC`
versions). -/
theorem claim_C4 :
    moduleExists fixtureFS fixturePaths "OpenMPI/1.6.4-GCC-4.6.4" = true ∧
    moduleExists fixtureFS fixturePaths "foo/1.2.3" = false ∧
    ∀ n : String, strHasChar n '/' = false →
      moduleExists fixtureFS fixturePaths n = false := by
  refine ⟨by decide, by decide, ?_⟩
  intro n h
  cases hme : moduleExists fixtureFS fixturePaths n with
  | false => rfl
  | true =>
    exfalso
    have hmem : n ∈ available fixtureFS fixturePaths (some n) :=
      of_decide_eq_true hme
    have hsub : n ∈ availableAll fixtureFS fixturePaths :=
      List.mem_of_mem_filter hmem
    rw [availableAll_fixture] at hsub
    simp only [List.mem_cons, List.not_mem_nil, or_false] at hsub
    rcases hsub with rfl | rfl | rfl | rfl | rfl | rfl <;>
      exact absurd h (by decide)

/-- C4 witness: `exists("GCC")` is false in the fixture although three
`GCC/*` versions are available. -/
theorem claim_C4_witness :
    moduleExists fixtureFS fixturePaths "GCC" = false :=
  claim_C4.2.2 "GCC" (by decide)

/-- C5: on the fixture containing exactly the three GCC versions `4.6.3`,
`4.6.4` and `4.7.2` (listed out of order on disk), `available("GCC")`
returns exactly those three in ascending numeric-segment-aware version
order, and `available` with the exact name `GCC/4.6.3` returns exactly one
entry. -/
theorem claim_C5 :
    available fixtureFS fixturePaths (some "GCC") =
      ["GCC/4.6.3", "GCC/4.6.4", "GCC/4.7.2"] ∧
    available fixtureFS fixturePaths (some "GCC/4.6.3") = ["GCC/4.6.3"] := by
  exact ⟨by decide, by decide⟩

/-- C6: `getLibdir` over the qualifying library subdirectories of the
resolved root returns nothing when zero qualify, the single subdirectory
when exactly one qualifies, fails with `AmbiguousLibraryDirectory` when
several qualify under `only_one = true`, returns all qualifying
subdirectories sorted under `only_one = false`, and with a required-file set
only subdirectories containing at least one listed file qualify. -/
theorem claim_C6 (subdirs : List (String × List String))
    (fsreq : Option (List String)) :
    (qualifyingLibdirs subdirs fsreq = [] →
      ∀ b, get_software_libdir (some subdirs) b fsreq =
        LibdirResult.noneFound) ∧
    (∀ d, qualifyingLibdirs subdirs fsreq = [d] →
      ∀ b, get_software_libdir (some subdirs) b fsreq =
        LibdirResult.one d) ∧
    (2 ≤ (qualifyingLibdirs subdirs fsreq).length →
      get_software_libdir (some subdirs) true fsreq =
        LibdirResult.ambiguousLibraryDirectory ∧
      get_software_libdir (some subdirs) false fsreq =
        LibdirResult.many (qualifyingLibdirs subdirs fsreq)) ∧
    (∀ req, qualifyingLibdirs subdirs (some req) =
      (qualifyingLibdirs subdirs Option.none).filter
        (fun d => req.any (fun f => (subdirFiles subdirs d).contains f))) := by
  refine ⟨?_, ?_, ?_, ?_⟩
  · intro h b
    simp [get_software_libdir, h]
  · intro d h b
    simp [get_software_libdir, h]
  · intro h
    rcases hq : qualifyingLibdirs subdirs fsreq with _ | ⟨a, _ | ⟨b, t⟩⟩
    · rw [hq] at h; simp at h
    · rw [hq] at h; simp at h
    · exact ⟨by simp [get_software_libdir, hq],
        by simp [get_software_libdir, hq]⟩
  · intro req
    have hpt : ∀ d ∈ libSubdirCandidates,
        subdirQualifies subdirs (some req) d =
        (req.any (fun f => (subdirFiles subdirs d).contains f) &&
          subdirQualifies subdirs Option.none d) := by
      intro d _
      simp [subdirQualifies, Bool.and_comm]
    show libSubdirCandidates.filter _ = _
    rw [List.filter_congr hpt, ← List.filter_filter]
    rfl

/-- C6 witness: a root with subdirectories `lib` and `lib64` is ambiguous
under the default, yields `["lib", "lib64"]` under `only_one = false`, and
the required-file set `["foo"]` (present only under `lib64`) selects
`lib64` alone. -/
theorem claim_C6_witness :
    get_software_libdir (some [("lib", ["a"]), ("lib64", ["foo"])]) true
      Option.none = LibdirResult.ambiguousLibraryDirectory ∧
    get_software_libdir (some [("lib", ["a"]), ("lib64", ["foo"])]) false
      Option.none = LibdirResult.many ["lib", "lib64"] ∧
    get_software_libdir (some [("lib", ["a"]), ("lib64", ["foo"])]) true
      (some ["foo"]) = LibdirResult.one "lib64" :=
  ⟨((claim_C6 [("lib", ["a"]), ("lib64", ["foo"])] Option.none).2.2.1
      (by decide)).1,
   ((claim_C6 [("lib", ["a"]), ("lib64", ["foo"])] Option.none).2.2.1
      (by decide)).2,
   (claim_C6 [("lib", ["a"]), ("lib64", ["foo"])] (some ["foo"])).2.1
      "lib64" (by decide) true⟩

/-- C7: the package name `netCDF-C++` canonicalizes to the suffix
`NETCDFMINCPLUSPLUS`; with `EBROOTNETCDFMINCPLUSPLUS` and
`EBVERSIONNETCDFMINCPLUSPLUS` set in the environment, `getRoot` and
`getVersion` return exactly those values, and for any name whose canonical
variables are absent from the environment both return `Option.none` rather
than failing. -/
theorem claim_C7 :
    convert_name "netCDF-C++" = "NETCDFMINCPLUSPLUS" ∧
    (∀ r v rest,
      get_software_root ([("EBROOTNETCDFMINCPLUSPLUS", r),
        ("EBVERSIONNETCDFMINCPLUSPLUS", v)] ++ rest) "netCDF-C++" =
        some r ∧
      get_software_version ([("EBROOTNETCDFMINCPLUSPLUS", r),
        ("EBVERSIONNETCDFMINCPLUSPLUS", v)] ++ rest) "netCDF-C++" =
        some v) ∧
    (∀ name env,
      lookupEnv env ("EBROOT" ++ convert_name name) = Option.none →
      get_software_root env name = Option.none) ∧
    (∀ name env,
      lookupEnv env ("EBVERSION" ++ convert_name name) = Option.none →
      get_software_version env name = Option.none) :=
  ⟨by decide, fun r v rest => ⟨rfl, rfl⟩,
   fun name env h => h, fun name env h => h⟩

/-- C7 witness: on an empty environment, both `getRoot` and `getVersion`
return `Option.none` for the name `foo`. -/
theorem claim_C7_witness :
    get_software_root [] "foo" = Option.none ∧
    get_software_version [] "foo" = Option.none :=
  ⟨claim_C7.2.2.1 "foo" [] rfl, claim_C7.2.2.2 "foo" [] rfl⟩

/-- C8: `purge()` is idempotent: it always leaves `loadedModules()` empty
(so purging an already-empty set is a successful no-op) and purging twice
equals a single purge. -/
theorem claim_C8 (s : Session) :
    (Session.purge s).loadedModules = [] ∧
    Session.purge (Session.purge s) = Session.purge s :=
  ⟨rfl, Session.purge_purge s⟩

/-- C9: `EasyBuildLog.error` raises `EasyBuildError` if and only if the
`raiseError` flag is true at the time of the call; the raised exception's
message contains the original message text (as a suffix of the wrapped
message); when `raiseError` is false, `error` returns normally after
logging the wrapped message. -/
theorem claim_C9 (st : LogState) (ci msg : String) :
    ((EasyBuildLog.error st ci msg).2.isSome = st.raiseError) ∧
    (∀ e, (EasyBuildLog.error st ci msg).2 = some e →
      ∃ p, e.msg = p ++ msg) ∧
    (st.raiseError = false →
      (EasyBuildLog.error st ci msg).2 = Option.none ∧
      (EasyBuildLog.error st ci msg).1.log =
        st.log ++
          ["EasyBuild crashed with an error " ++ ci ++ ": " ++ msg]) := by
  cases h : st.raiseError with
  | false =>
    refine ⟨by simp [EasyBuildLog.error, h], ?_,
      fun _ => ⟨by simp [EasyBuildLog.error, h],
        by simp [EasyBuildLog.error, h]⟩⟩
    intro e he
    simp [EasyBuildLog.error, h] at he
  | true =>
    refine ⟨by simp [EasyBuildLog.error, h], ?_,
      fun hf => Bool.noConfusion hf⟩
    intro e he
    simp only [EasyBuildLog.error, h, if_true] at he
    refine ⟨"EasyBuild crashed with an error " ++ ci ++ ": ", ?_⟩
    injection he with he2
    rw [← he2]

/-- C9 witness: with `raiseError` true the wrapped message ends in the
original message, and with `raiseError` false `error` returns without an
exception. -/
theorem claim_C9_witness :
    (∃ p, EasyBuildError.msg
        { msg := "EasyBuild crashed with an error X: boom" } =
        p ++ "boom") ∧
    (EasyBuildLog.error { raiseError := false, log := [] } "X" "boom").2 =
      Option.none :=
  ⟨(claim_C9 { raiseError := true, log := [] } "X" "boom").2.1
      { msg := "EasyBuild crashed with an error X: boom" } (by decide),
   ((claim_C9 { raiseError := false, log := [] } "X" "boom").2.2 rfl).1⟩

/-- C10: `EasyBuildLog.exception` always raises `EasyBuildError` regardless
of the prior value of the `raiseError` flag, and at the moment the exception
propagates the flag is true; it is set to false only transiently for the
inner logging call, which therefore does not raise. -/
theorem claim_C10 (st : LogState) (ci msg : String) :
    ((EasyBuildLog.exception st ci msg).2 =
      some { msg :=
        "EasyBuild encountered an exception " ++ ci ++ ": " ++ msg }) ∧
    ((EasyBuildLog.exception st ci msg).1.raiseError = true) ∧
    ((EasyBuildLog.exceptionInner st).raiseError = false) ∧
    ((FancyLogger.exceptionLog (EasyBuildLog.exceptionInner st) ci
      ("EasyBuild encountered an exception " ++ ci ++ ": " ++ msg)).2 =
      Option.none) :=
  ⟨rfl, rfl, rfl, rfl⟩
